import Mathlib

/-!
Verification of the natural-language specification of
modules/video_output/opengl/renderer.c (VLC OpenGL renderer) against a
shallow embedding of the source.

Modelling conventions:
* C float arithmetic is idealised as arithmetic in a linear ordered field
  F; the transcendental library functions used by the source (tanf, sinf,
  cosf, atanf, sqrtf, and the constant M_PI) are passed in as a FloatOps
  record, so the embedded definitions remain computable and can be
  instantiated both with the real functions (for trigonometric facts,
  F := Real) and with concrete rational stand-ins (for witnesses,
  F := Rat).
* 4x4 matrices are modelled exactly as in the source: flat arrays of 16
  scalars, index i*4+j, written with Function.update at the same indices
  as the C assignments.
* C arrays produced by the mesh builders are modelled as functions from
  the flat position to the stored value; each builder's write offset
  formula is inverted by Nat division/modulo, mirroring the fact that the
  loops write every position exactly once at that offset.
* Allocation failure of vlc_alloc is environmental; it is modelled by an
  AllocOracle giving the success of the three allocations each builder
  performs, in program order.  malloc/free pairing is tracked by an event
  ledger so that the cleanup paths of the builders are visible.
* The functions vlc_viewpoint_reverse and vlc_viewpoint_to_4x4 live in the
  VLC core, outside this module; the embedding takes them as opaque
  function parameters, which is all the claims about this module need.
-/

namespace VlcGlRenderer

/-- Result codes used by the module (from the VLC core headers):
VLC_SUCCESS, generic failure, out-of-memory (vlc_alloc failure), and
invalid-argument (VLC_EBADVAR, the InvalidArgument error of the spec). -/
inductive vlc_result
  | VLC_SUCCESS
  | VLC_EGENERIC
  | VLC_ENOMEM
  | VLC_EBADVAR
  deriving DecidableEq

/-- video_orientation_t: the 8 discrete source orientations. -/
inductive video_orientation_t
  | ORIENT_NORMAL
  | ORIENT_ROTATED_90
  | ORIENT_ROTATED_180
  | ORIENT_ROTATED_270
  | ORIENT_HFLIPPED
  | ORIENT_VFLIPPED
  | ORIENT_TRANSPOSED
  | ORIENT_ANTI_TRANSPOSED
  deriving DecidableEq

/-- video_projection_mode_t: the three projection modes handled. -/
inductive video_projection_mode_t
  | PROJECTION_MODE_RECTANGULAR
  | PROJECTION_MODE_EQUIRECTANGULAR
  | PROJECTION_MODE_CUBEMAP_LAYOUT_STANDARD
  deriving DecidableEq

/-- video_multiview_mode_t: the multiview modes the renderer crops for;
MULTIVIEW_2D stands for every mode hitting the default switch case. -/
inductive video_multiview_mode_t
  | MULTIVIEW_2D
  | MULTIVIEW_STEREO_TB
  | MULTIVIEW_STEREO_SBS
  deriving DecidableEq

/-- A 4x4 matrix stored as in the source: a flat array of 16 scalars,
entry (row i, column j) at index i*4+j. -/
abbrev Mat4 (F : Type) := Fin 16 → F

/-- The float library functions and the constant M_PI used by the module,
abstracted so that the embedding is parametric in the float semantics. -/
structure FloatOps (F : Type) where
  tanf : F → F
  sinf : F → F
  cosf : F → F
  atanf : F → F
  sqrtf : F → F
  M_PI : F

/-- vlc_viewpoint_t: yaw/pitch/roll angles and a field of view in degrees. -/
structure vlc_viewpoint_t (F : Type) where
  yaw : F
  pitch : F
  roll : F
  fov : F
  deriving DecidableEq

/-- The fields of video_format_t that vlc_gl_renderer_Draw compares and
snapshots (the visible rectangle of the source). -/
structure video_format_t where
  i_x_offset : ℕ
  i_y_offset : ℕ
  i_visible_width : ℕ
  i_visible_height : ℕ
  deriving DecidableEq

variable {F : Type} [LinearOrderedField F]

/-- SPHERE_RADIUS 1.f -/
def SPHERE_RADIUS : F := 1

/-- static const GLfloat identity[]: the 4x4 identity matrix. -/
def identity : Mat4 F :=
  ![1, 0, 0, 0,
    0, 1, 0, 0,
    0, 0, 1, 0,
    0, 0, 0, 1]

/-- getZoomMatrix: translation by zoom along the view axis. -/
def getZoomMatrix (zoom : F) : Mat4 F :=
  ![1, 0, 0, 0,
    0, 1, 0, 0,
    0, 0, 1, 0,
    0, 0, zoom, 1]

/-- getProjectionMatrix: perspective matrix with zNear = 0.01, zFar = 1000. -/
def getProjectionMatrix (tanf : F → F) (sar fovy : F) : Mat4 F :=
  let zFar : F := 1000
  let zNear : F := 1 / 100
  let f : F := 1 / tanf (fovy / 2)
  ![f / sar, 0, 0, 0,
    0, f, 0, 0,
    0, 0, (zNear + zFar) / (zNear - zFar), -1,
    0, 0, (2 * zNear * zFar) / (zNear - zFar), 0]

/-- getOrientationTransformMatrix: starts from the identity matrix and
patches the entries the source assigns for each of the 8 orientations,
at the same flat indices i*4+j, using the exact integer cosine/sine
constants of the source. -/
def getOrientationTransformMatrix (orientation : video_orientation_t) : Mat4 F :=
  let matrix : Mat4 F := identity
  let k_cos_pi : F := -1
  let k_cos_pi_2 : F := 0
  let k_cos_n_pi_2 : F := 0
  let k_sin_pi : F := 0
  let k_sin_pi_2 : F := 1
  let k_sin_n_pi_2 : F := -1
  match orientation with
  | .ORIENT_ROTATED_90 =>
      Function.update (Function.update (Function.update (Function.update (Function.update
        matrix (0 * 4 + 0) k_cos_pi_2) (0 * 4 + 1) (-k_sin_pi_2))
        (1 * 4 + 0) k_sin_pi_2) (1 * 4 + 1) k_cos_pi_2) (3 * 4 + 1) 1
  | .ORIENT_ROTATED_180 =>
      Function.update (Function.update (Function.update (Function.update (Function.update
        (Function.update matrix (0 * 4 + 0) k_cos_pi) (0 * 4 + 1) (-k_sin_pi))
        (1 * 4 + 0) k_sin_pi) (1 * 4 + 1) k_cos_pi) (3 * 4 + 0) 1) (3 * 4 + 1) 1
  | .ORIENT_ROTATED_270 =>
      Function.update (Function.update (Function.update (Function.update (Function.update
        matrix (0 * 4 + 0) k_cos_n_pi_2) (0 * 4 + 1) (-k_sin_n_pi_2))
        (1 * 4 + 0) k_sin_n_pi_2) (1 * 4 + 1) k_cos_n_pi_2) (3 * 4 + 0) 1
  | .ORIENT_HFLIPPED =>
      Function.update (Function.update matrix (0 * 4 + 0) (-1)) (3 * 4 + 0) 1
  | .ORIENT_VFLIPPED =>
      Function.update (Function.update matrix (1 * 4 + 1) (-1)) (3 * 4 + 1) 1
  | .ORIENT_TRANSPOSED =>
      Function.update (Function.update (Function.update (Function.update (Function.update
        matrix (0 * 4 + 0) 0) (1 * 4 + 1) 0) (2 * 4 + 2) (-1)) (0 * 4 + 1) 1) (1 * 4 + 0) 1
  | .ORIENT_ANTI_TRANSPOSED =>
      Function.update (Function.update (Function.update (Function.update (Function.update
        (Function.update (Function.update
          matrix (0 * 4 + 0) 0) (1 * 4 + 1) 0) (2 * 4 + 2) (-1)) (0 * 4 + 1) (-1))
        (1 * 4 + 0) (-1)) (3 * 4 + 0) 1) (3 * 4 + 1) 1
  | _ => matrix

/-- The fixed matrix table the specification promises for the 8 discrete
orientations: each case written out as a literal matrix with exact
integer cosine/sine entries for the 90-degree-step angles. -/
def orientationMatrixTable (orientation : video_orientation_t) : Mat4 F :=
  match orientation with
  | .ORIENT_NORMAL =>
      ![1, 0, 0, 0,
        0, 1, 0, 0,
        0, 0, 1, 0,
        0, 0, 0, 1]
  | .ORIENT_ROTATED_90 =>
      ![0, -1, 0, 0,
        1, 0, 0, 0,
        0, 0, 1, 0,
        0, 1, 0, 1]
  | .ORIENT_ROTATED_180 =>
      ![-1, 0, 0, 0,
        0, -1, 0, 0,
        0, 0, 1, 0,
        1, 1, 0, 1]
  | .ORIENT_ROTATED_270 =>
      ![0, 1, 0, 0,
        -1, 0, 0, 0,
        0, 0, 1, 0,
        1, 0, 0, 1]
  | .ORIENT_HFLIPPED =>
      ![-1, 0, 0, 0,
        0, 1, 0, 0,
        0, 0, 1, 0,
        1, 0, 0, 1]
  | .ORIENT_VFLIPPED =>
      ![1, 0, 0, 0,
        0, -1, 0, 0,
        0, 0, 1, 0,
        0, 1, 0, 1]
  | .ORIENT_TRANSPOSED =>
      ![0, 1, 0, 0,
        1, 0, 0, 0,
        0, 0, -1, 0,
        0, 0, 0, 1]
  | .ORIENT_ANTI_TRANSPOSED =>
      ![0, -1, 0, 0,
        -1, 0, 0, 0,
        0, 0, -1, 0,
        1, 1, 0, 1]

/-- renderer->var: the four matrix uniforms the renderer stores. -/
structure TransformSet (F : Type) where
  OrientationMatrix : Mat4 F
  ProjectionMatrix : Mat4 F
  ViewMatrix : Mat4 F
  ZoomMatrix : Mat4 F

/-- The state of struct vlc_gl_renderer that the verified operations read
and write: viewpoint/FOV/zoom state, format metadata, the interop plane
geometry, the matrix set, the last-drawn source snapshot, and the GPU
buffer contents (modelled by value). -/
structure vlc_gl_renderer (F : Type) where
  f_sar : F
  f_fovx : F
  f_fovy : F
  f_z : F
  vp : vlc_viewpoint_t F
  fmt_projection_mode : video_projection_mode_t
  fmt_multiview_mode : video_multiview_mode_t
  fmt_i_cubemap_padding : F
  fmt_i_width : F
  fmt_i_height : F
  var : TransformSet F
  interop_tex_count : ℕ
  texs_w_num : ℕ → F
  texs_w_den : ℕ → F
  texs_h_num : ℕ → F
  texs_h_den : ℕ → F
  tex_width : ℕ → F
  tex_height : ℕ → F
  last_source : video_format_t
  vertex_buffer_object : ℕ → F
  index_buffer_object : ℕ → ℕ
  texture_buffer_object : ℕ → ℕ → F
  nb_indices : ℕ

/-- getViewpointMatrixes: for the spherical and cubemap projections the
perspective, zoom and view matrices are computed; for every other
projection mode (the flat rectangular one) all three are set to the
identity matrix.  vlc_viewpoint_to_4x4 is VLC-core code outside this
module, taken as a parameter. -/
def getViewpointMatrixes (ops : FloatOps F)
    (viewpoint_to_4x4 : vlc_viewpoint_t F → Mat4 F)
    (renderer : vlc_gl_renderer F)
    (projection_mode : video_projection_mode_t) : vlc_gl_renderer F :=
  if projection_mode = .PROJECTION_MODE_EQUIRECTANGULAR
      ∨ projection_mode = .PROJECTION_MODE_CUBEMAP_LAYOUT_STANDARD then
    { renderer with var :=
      { renderer.var with
        ProjectionMatrix := getProjectionMatrix ops.tanf renderer.f_sar renderer.f_fovy
        ZoomMatrix := getZoomMatrix renderer.f_z
        ViewMatrix := viewpoint_to_4x4 renderer.vp } }
  else
    { renderer with var :=
      { renderer.var with
        ProjectionMatrix := identity
        ZoomMatrix := identity
        ViewMatrix := identity } }

/-- UpdateFOVy: recomputes the vertical FOV from the horizontal FOV and
the window aspect ratio of the renderer. -/
def UpdateFOVy (ops : FloatOps F) (renderer : vlc_gl_renderer F) : vlc_gl_renderer F :=
  { renderer with
    f_fovy := 2 * ops.atanf (ops.tanf (renderer.f_fovx / 2) / renderer.f_sar) }

/-- UpdateZ: computes the minimal z that keeps the camera inside the
sphere, forces f_z to 0 at or below the 90-degree threshold, and above it
linearly interpolates up to FIELD_OF_VIEW_DEGREES_MAX, clamping at z_min.
The constant FIELD_OF_VIEW_DEGREES_MAX comes from a header outside this
module and is passed as a parameter. -/
def UpdateZ (ops : FloatOps F) (FIELD_OF_VIEW_DEGREES_MAX : F)
    (renderer : vlc_gl_renderer F) : vlc_gl_renderer F :=
  let tan_fovx_2 := ops.tanf (renderer.f_fovx / 2)
  let tan_fovy_2 := ops.tanf (renderer.f_fovy / 2)
  let z_min := -SPHERE_RADIUS / ops.sinf (ops.atanf (ops.sqrtf
      (tan_fovx_2 * tan_fovx_2 + tan_fovy_2 * tan_fovy_2)))
  let z_thresh : F := 90
  if renderer.f_fovx ≤ z_thresh * ops.M_PI / 180 then
    { renderer with f_z := 0 }
  else
    let f := z_min / ((FIELD_OF_VIEW_DEGREES_MAX - z_thresh) * ops.M_PI / 180)
    let f_z := f * renderer.f_fovx - f * z_thresh * ops.M_PI / 180
    let f_z := if f_z < z_min then z_min else f_z
    { renderer with f_z := f_z }

/-- vlc_gl_renderer_SetViewpoint: rejects a FOV outside the legal range
with VLC_EBADVAR without touching the state; otherwise stores the
reversed viewpoint, refreshes the FOV-derived state when the horizontal
FOV in radians moved by at least 0.001, and recomputes the matrices for
the active projection mode.  The range constants and the VLC-core
functions vlc_viewpoint_reverse and vlc_viewpoint_to_4x4 are parameters
(they are defined outside this module). -/
def vlc_gl_renderer_SetViewpoint (ops : FloatOps F)
    (FIELD_OF_VIEW_DEGREES_MIN FIELD_OF_VIEW_DEGREES_MAX : F)
    (vlc_viewpoint_reverse : vlc_viewpoint_t F → vlc_viewpoint_t F)
    (viewpoint_to_4x4 : vlc_viewpoint_t F → Mat4 F)
    (renderer : vlc_gl_renderer F)
    (p_vp : vlc_viewpoint_t F) : vlc_result × vlc_gl_renderer F :=
  if p_vp.fov > FIELD_OF_VIEW_DEGREES_MAX ∨ p_vp.fov < FIELD_OF_VIEW_DEGREES_MIN then
    (.VLC_EBADVAR, renderer)
  else
    let f_fovx := p_vp.fov * ops.M_PI / 180
    let r1 := { renderer with vp := vlc_viewpoint_reverse p_vp }
    let r2 :=
      if |f_fovx - r1.f_fovx| ≥ 1 / 1000 then
        UpdateZ ops FIELD_OF_VIEW_DEGREES_MAX (UpdateFOVy ops { r1 with f_fovx := f_fovx })
      else r1
    (.VLC_SUCCESS, getViewpointMatrixes ops viewpoint_to_4x4 r2 r2.fmt_projection_mode)

/-- Concrete rational stand-in for the float operations, used to evaluate
the embedded definitions on concrete inputs (the identity function for
each library call and 3 for M_PI). -/
def ratOps : FloatOps ℚ :=
  { tanf := fun x => x
    sinf := fun x => x
    cosf := fun x => x
    atanf := fun x => x
    sqrtf := fun x => x
    M_PI := 3 }

/-- A concrete renderer state over the rationals for evaluating the
operations on concrete inputs. -/
def testRenderer : vlc_gl_renderer ℚ :=
  { f_sar := 1
    f_fovx := 0
    f_fovy := 0
    f_z := 0
    vp := { yaw := 0, pitch := 0, roll := 0, fov := 0 }
    fmt_projection_mode := .PROJECTION_MODE_RECTANGULAR
    fmt_multiview_mode := .MULTIVIEW_2D
    fmt_i_cubemap_padding := 0
    fmt_i_width := 1
    fmt_i_height := 1
    var :=
      { OrientationMatrix := identity
        ProjectionMatrix := identity
        ViewMatrix := identity
        ZoomMatrix := identity }
    interop_tex_count := 1
    texs_w_num := fun _ => 1
    texs_w_den := fun _ => 1
    texs_h_num := fun _ => 1
    texs_h_den := fun _ => 1
    tex_width := fun _ => 1
    tex_height := fun _ => 1
    last_source := { i_x_offset := 0, i_y_offset := 0, i_visible_width := 0,
                     i_visible_height := 0 }
    vertex_buffer_object := fun _ => 0
    index_buffer_object := fun _ => 0
    texture_buffer_object := fun _ _ => 0
    nb_indices := 0 }

/-- The z_min formula of UpdateZ, written out as in the specification:
z_min = -radius / sin(atan(sqrt(tan^2(fovx/2) + tan^2(fovy/2)))). -/
def sphere_z_min (ops : FloatOps F) (f_fovx f_fovy : F) : F :=
  -SPHERE_RADIUS / ops.sinf (ops.atanf (ops.sqrtf
      (ops.tanf (f_fovx / 2) * ops.tanf (f_fovx / 2)
        + ops.tanf (f_fovy / 2) * ops.tanf (f_fovy / 2))))

/-- Success of the three vlc_alloc calls each mesh builder performs, in
program order (vertex positions, texture coordinates, indices).
Allocation failure is environmental, so it is an oracle of the model. -/
structure AllocOracle where
  vertexOk : Bool
  textureOk : Bool
  indicesOk : Bool

/-- The three heap arrays a mesh builder allocates. -/
inductive MeshBuf
  | vertex
  | texture
  | index
  deriving DecidableEq

/-- A heap event of a mesh builder: an allocation or a matching free. -/
inductive MemEvent
  | alloc (b : MeshBuf)
  | free (b : MeshBuf)
  deriving DecidableEq

/-- The multiset of arrays still held after a sequence of heap events. -/
def liveAfter (evs : List MemEvent) : Multiset MeshBuf :=
  evs.foldl (fun s e => match e with
    | .alloc b => b ::ₘ s
    | .free b => s.erase b) 0

/-- Output of a mesh builder: the counts the builder stores through its
out-parameters, and the three arrays modelled as functions from the flat
array position to the stored value. -/
structure MeshResult (F : Type) where
  nbVertices : ℕ
  nbIndices : ℕ
  vertexCoord : ℕ → F
  textureCoord : ℕ → F
  indices : ℕ → ℕ

/-- nbLatBands of BuildSphere. -/
def nbLatBands : ℕ := 128

/-- nbLonBands of BuildSphere. -/
def nbLonBands : ℕ := 128

/-- The vertex BuildSphere computes at latitude band lat and longitude
band lon: theta = lat*pi/nbLatBands, phi = lon*2*pi/nbLonBands, position
SPHERE_RADIUS * (cos phi * sin theta, cos theta, sin phi * sin theta). -/
def sphereVertex (ops : FloatOps F) (lat lon : ℕ) : F × F × F :=
  let theta : F := (lat : F) * ops.M_PI / (nbLatBands : F)
  let sinTheta := ops.sinf theta
  let cosTheta := ops.cosf theta
  let phi : F := (lon : F) * 2 * ops.M_PI / (nbLonBands : F)
  let sinPhi := ops.sinf phi
  let cosPhi := ops.cosf phi
  let x := cosPhi * sinTheta
  let y := cosTheta
  let z := sinPhi * sinTheta
  (SPHERE_RADIUS * x, SPHERE_RADIUS * y, SPHERE_RADIUS * z)

/-- The vertexCoord array of BuildSphere as a function of the flat
position: the loops write the three coordinates of the (lat, lon) vertex
at offset off1 = (lat * (nbLonBands + 1) + lon) * 3, each position
exactly once, so the array content is recovered by inverting off1. -/
def BuildSphere_vertexCoord (ops : FloatOps F) (i : ℕ) : F :=
  let c := i % 3
  let vi := i / 3
  let lat := vi / (nbLonBands + 1)
  let lon := vi % (nbLonBands + 1)
  let v := sphereVertex ops lat lon
  if c = 0 then v.1 else if c = 1 then v.2.1 else v.2.2

/-- The textureCoord array of BuildSphere as a function of the flat
position: plane p stores (u, v) = (lon/nbLonBands * width, lat/nbLatBands
* height) at offset off2 = (p*(nbLatBands+1)*(nbLonBands+1) +
lat*(nbLonBands+1) + lon) * 2, each position exactly once. -/
def BuildSphere_textureCoord (left top right bottom : ℕ → F) (i : ℕ) : F :=
  let c := i % 2
  let vi := i / 2
  let p := vi / ((nbLatBands + 1) * (nbLonBands + 1))
  let rest := vi % ((nbLatBands + 1) * (nbLonBands + 1))
  let lat := rest / (nbLonBands + 1)
  let lon := rest % (nbLonBands + 1)
  let width := right p - left p
  let height := bottom p - top p
  let u := (lon : F) / (nbLonBands : F) * width
  let v := (lat : F) / (nbLatBands : F) * height
  if c = 0 then u else v

/-- The indices array of BuildSphere as a function of the flat position:
the loops write the 6 corner indices of cell (lat, lon) at offset
off = (lat * nbLatBands + lon) * 3 * 2 (the source uses nbLatBands here
where the longitude band count is meant; both equal 128).  Every position
is written exactly once, so the content is recovered by inverting off
with the same constant.  Entries are stored as GLushort, hence the
reduction modulo 65536. -/
def BuildSphere_indices (i : ℕ) : ℕ :=
  let k := i % 6
  let cell := i / 6
  let lat := cell / nbLatBands
  let lon := cell % nbLatBands
  let first := lat * (nbLonBands + 1) + lon
  let second := first + nbLonBands + 1
  (if k = 0 then first
   else if k = 1 then second
   else if k = 2 then first + 1
   else if k = 3 then second
   else if k = 4 then second + 1
   else first + 1) % 65536

/-- BuildSphere: 128x128 latitude/longitude tessellation of the unit
sphere.  Returns VLC_ENOMEM when any of the three allocations fails,
freeing what was already allocated (in source order), and otherwise the
mesh with (nbLatBands+1)*(nbLonBands+1) vertices and
nbLatBands*nbLonBands*3*2 indices. -/
def BuildSphere (alloc : AllocOracle) (nbPlanes : ℕ) (ops : FloatOps F)
    (left top right bottom : ℕ → F) :
    Except vlc_result (MeshResult F) × List MemEvent :=
  let nbVertices := (nbLatBands + 1) * (nbLonBands + 1)
  let nbIndices := nbLatBands * nbLonBands * 3 * 2
  if alloc.vertexOk = false then
    (.error .VLC_ENOMEM, [])
  else if alloc.textureOk = false then
    (.error .VLC_ENOMEM, [.alloc .vertex, .free .vertex])
  else if alloc.indicesOk = false then
    (.error .VLC_ENOMEM,
      [.alloc .vertex, .alloc .texture, .free .texture, .free .vertex])
  else
    (.ok
      { nbVertices := nbVertices
        nbIndices := nbIndices
        vertexCoord := BuildSphere_vertexCoord ops
        textureCoord := BuildSphere_textureCoord left top right bottom
        indices := BuildSphere_indices },
      [.alloc .vertex, .alloc .texture, .alloc .index])

/-- The static vertex coordinate table of BuildCube (24 vertices). -/
def cubeCoord : List F :=
  [-1, 1, -1,
   -1, -1, -1,
   1, 1, -1,
   1, -1, -1,

   -1, 1, 1,
   -1, -1, 1,
   1, 1, 1,
   1, -1, 1,

   -1, 1, -1,
   -1, -1, -1,
   -1, 1, 1,
   -1, -1, 1,

   1, 1, -1,
   1, -1, -1,
   1, 1, 1,
   1, -1, 1,

   -1, -1, 1,
   -1, -1, -1,
   1, -1, 1,
   1, -1, -1,

   -1, 1, 1,
   -1, 1, -1,
   1, 1, 1,
   1, 1, -1]

/-- The per-plane texture coordinate table of BuildCube: the sampling
rectangle is cut into a 4-column x 3-row atlas with the padding pushed
inward on each face edge. -/
def cubeTex (padW padH : F) (left top right bottom : ℕ → F) (p : ℕ) : List F :=
  let width := right p - left p
  let height := bottom p - top p
  let col0 := left p
  let col1 := left p + width * (1 / 3)
  let col2 := left p + width * (2 / 3)
  let col3 := left p + width
  let row0 := top p
  let row1 := top p + height * (1 / 2)
  let row2 := top p + height
  [col1 + padW, row1 + padH,
   col1 + padW, row2 - padH,
   col2 - padW, row1 + padH,
   col2 - padW, row2 - padH,

   col3 - padW, row1 + padH,
   col3 - padW, row2 - padH,
   col2 + padW, row1 + padH,
   col2 + padW, row2 - padH,

   col2 - padW, row0 + padH,
   col2 - padW, row1 - padH,
   col1 + padW, row0 + padH,
   col1 + padW, row1 - padH,

   col0 + padW, row0 + padH,
   col0 + padW, row1 - padH,
   col1 - padW, row0 + padH,
   col1 - padW, row1 - padH,

   col0 + padW, row2 - padH,
   col0 + padW, row1 + padH,
   col1 - padW, row2 - padH,
   col1 - padW, row1 + padH,

   col2 + padW, row0 + padH,
   col2 + padW, row1 - padH,
   col3 - padW, row0 + padH,
   col3 - padW, row1 - padH]

/-- The static index table of BuildCube (2 triangles per face). -/
def cubeInd : List ℕ :=
  [0, 1, 2, 2, 1, 3,
   6, 7, 4, 4, 7, 5,
   10, 11, 8, 8, 11, 9,
   12, 13, 14, 14, 13, 15,
   18, 19, 16, 16, 19, 17,
   20, 21, 22, 22, 21, 23]

/-- BuildCube: 24 vertices, 36 indices; plane p's texture coordinates are
copied to offset p * nbVertices * 2. -/
def BuildCube (alloc : AllocOracle) (nbPlanes : ℕ) (padW padH : F)
    (left top right bottom : ℕ → F) :
    Except vlc_result (MeshResult F) × List MemEvent :=
  let nbVertices := 4 * 6
  let nbIndices := 6 * 6
  if alloc.vertexOk = false then
    (.error .VLC_ENOMEM, [])
  else if alloc.textureOk = false then
    (.error .VLC_ENOMEM, [.alloc .vertex, .free .vertex])
  else if alloc.indicesOk = false then
    (.error .VLC_ENOMEM,
      [.alloc .vertex, .alloc .texture, .free .texture, .free .vertex])
  else
    (.ok
      { nbVertices := nbVertices
        nbIndices := nbIndices
        vertexCoord := fun i => (cubeCoord (F := F)).getD i 0
        textureCoord := fun i =>
          (cubeTex padW padH left top right bottom (i / (nbVertices * 2))).getD
            (i % (nbVertices * 2)) 0
        indices := fun i => cubeInd.getD i 0 },
      [.alloc .vertex, .alloc .texture, .alloc .index])

/-- BuildRectangle: a quad of 4 vertices and 6 indices; plane p's texture
coordinates are the corners of its sampling rectangle, copied to offset
p * nbVertices * 2. -/
def BuildRectangle (alloc : AllocOracle) (nbPlanes : ℕ)
    (left top right bottom : ℕ → F) :
    Except vlc_result (MeshResult F) × List MemEvent :=
  let nbVertices := 4
  let nbIndices := 6
  if alloc.vertexOk = false then
    (.error .VLC_ENOMEM, [])
  else if alloc.textureOk = false then
    (.error .VLC_ENOMEM, [.alloc .vertex, .free .vertex])
  else if alloc.indicesOk = false then
    (.error .VLC_ENOMEM,
      [.alloc .vertex, .alloc .texture, .free .texture, .free .vertex])
  else
    (.ok
      { nbVertices := nbVertices
        nbIndices := nbIndices
        vertexCoord := fun i =>
          ([-1, 1, -1,
            -1, -1, -1,
            1, 1, -1,
            1, -1, -1] : List F).getD i 0
        textureCoord := fun i =>
          let p := i / (nbVertices * 2)
          [left p, top p,
           left p, bottom p,
           right p, top p,
           right p, bottom p].getD (i % (nbVertices * 2)) 0
        indices := fun i => ([0, 1, 2, 2, 1, 3] : List ℕ).getD i 0 },
      [.alloc .vertex, .alloc .texture, .alloc .index])

/-- SetupCoords: dispatches on the projection mode to the matching mesh
builder; on failure the error is returned and the renderer (and its GPU
buffers) is untouched; on success the three GPU buffers are uploaded
(plane j's texture coordinates from offset j * nbVertices * 2) and
nb_indices is stored. -/
def SetupCoords (ops : FloatOps F) (alloc : AllocOracle)
    (renderer : vlc_gl_renderer F)
    (left top right bottom : ℕ → F) : vlc_result × vlc_gl_renderer F :=
  let build :=
    match renderer.fmt_projection_mode with
    | .PROJECTION_MODE_RECTANGULAR =>
        BuildRectangle alloc renderer.interop_tex_count left top right bottom
    | .PROJECTION_MODE_EQUIRECTANGULAR =>
        BuildSphere alloc renderer.interop_tex_count ops left top right bottom
    | .PROJECTION_MODE_CUBEMAP_LAYOUT_STANDARD =>
        BuildCube alloc renderer.interop_tex_count
          (renderer.fmt_i_cubemap_padding / renderer.fmt_i_width)
          (renderer.fmt_i_cubemap_padding / renderer.fmt_i_height)
          left top right bottom
  match build.1 with
  | .error e => (e, renderer)
  | .ok m =>
      (.VLC_SUCCESS,
        { renderer with
          texture_buffer_object := fun j idx =>
            if j < renderer.interop_tex_count then
              m.textureCoord (j * m.nbVertices * 2 + idx)
            else renderer.texture_buffer_object j idx
          vertex_buffer_object := m.vertexCoord
          index_buffer_object := m.indices
          nb_indices := m.nbIndices })

/-- GetTextureCropParamsForStereo: for each of the first i_nbTextures
planes, moves left/top by the offset fraction of the current width/height
and sets right/bottom from the new left/top plus the coefficient fraction
of the old width/height. -/
def GetTextureCropParamsForStereo (i_nbTextures : ℕ)
    (stereoCoefs stereoOffsets : F × F)
    (left top right bottom : ℕ → F) :
    (ℕ → F) × (ℕ → F) × (ℕ → F) × (ℕ → F) :=
  (fun i => if i < i_nbTextures then
      left i + (right i - left i) * stereoOffsets.1
    else left i,
   fun i => if i < i_nbTextures then
      top i + (bottom i - top i) * stereoOffsets.2
    else top i,
   fun i => if i < i_nbTextures then
      left i + (right i - left i) * stereoOffsets.1
        + (right i - left i) * stereoCoefs.1
    else right i,
   fun i => if i < i_nbTextures then
      top i + (bottom i - top i) * stereoOffsets.2
        + (bottom i - top i) * stereoCoefs.2
    else bottom i)

/-- TextureCropForStereo: top-bottom stereo keeps the full width and the
top half (coefficients (1, 1/2), offsets (0, 0)); side-by-side keeps the
left half and the full height (coefficients (1/2, 1)); any other
multiview mode leaves the rectangles unchanged. -/
def TextureCropForStereo (renderer : vlc_gl_renderer F)
    (left top right bottom : ℕ → F) :
    (ℕ → F) × (ℕ → F) × (ℕ → F) × (ℕ → F) :=
  match renderer.fmt_multiview_mode with
  | .MULTIVIEW_STEREO_TB =>
      GetTextureCropParamsForStereo renderer.interop_tex_count
        (1, 1 / 2) (0, 0) left top right bottom
  | .MULTIVIEW_STEREO_SBS =>
      GetTextureCropParamsForStereo renderer.interop_tex_count
        (1 / 2, 1) (0, 0) left top right bottom
  | _ => (left, top, right, bottom)

/-- vlc_gl_renderer_Draw: when the incoming source's visible rectangle
differs from the last-drawn snapshot, recompute each plane's sampling
rectangle, apply the stereo crop, rebuild the mesh via SetupCoords
(propagating its error without touching the state), and store the new
snapshot; otherwise only redraw.  The Bool output records whether a mesh
rebuild was performed. -/
def vlc_gl_renderer_Draw (ops : FloatOps F) (alloc : AllocOracle)
    (renderer : vlc_gl_renderer F) (source : video_format_t) :
    vlc_result × vlc_gl_renderer F × Bool :=
  if source.i_x_offset ≠ renderer.last_source.i_x_offset
      ∨ source.i_y_offset ≠ renderer.last_source.i_y_offset
      ∨ source.i_visible_width ≠ renderer.last_source.i_visible_width
      ∨ source.i_visible_height ≠ renderer.last_source.i_visible_height then
    let scale_w : ℕ → F := fun j =>
      renderer.texs_w_num j / renderer.texs_w_den j / renderer.tex_width j
    let scale_h : ℕ → F := fun j =>
      renderer.texs_h_num j / renderer.texs_h_den j / renderer.tex_height j
    let left : ℕ → F := fun j => ((source.i_x_offset : F) + 0) * scale_w j
    let top : ℕ → F := fun j => ((source.i_y_offset : F) + 0) * scale_h j
    let right : ℕ → F := fun j =>
      ((source.i_x_offset : F) + (source.i_visible_width : F)) * scale_w j
    let bottom : ℕ → F := fun j =>
      ((source.i_y_offset : F) + (source.i_visible_height : F)) * scale_h j
    let crop := TextureCropForStereo renderer left top right bottom
    let sc := SetupCoords ops alloc renderer crop.1 crop.2.1 crop.2.2.1 crop.2.2.2
    if sc.1 ≠ .VLC_SUCCESS then
      (sc.1, renderer, true)
    else
      (.VLC_SUCCESS,
        { sc.2 with last_source :=
            { i_x_offset := source.i_x_offset
              i_y_offset := source.i_y_offset
              i_visible_width := source.i_visible_width
              i_visible_height := source.i_visible_height } },
        true)
  else
    (.VLC_SUCCESS, renderer, false)

/-- C1: for every one of the 8 discrete source orientations,
getOrientationTransformMatrix returns exactly the fixed matrix of that
case, with exact integer cosine/sine entries: a table lookup with exact
equality, no approximation and no general-angle computation. -/
theorem getOrientationTransformMatrix_eq_table (o : video_orientation_t) :
    getOrientationTransformMatrix (F := ℚ) o = orientationMatrixTable o := by
  cases o <;> decide

/-- C2: for the flat rectangular projection mode, getViewpointMatrixes
sets the ProjectionMatrix, ZoomMatrix and ViewMatrix all to the identity
matrix, regardless of the renderer's FOV, zoom and viewpoint state and of
the view-matrix computation. -/
theorem getViewpointMatrixes_flat_identity (ops : FloatOps F)
    (viewpoint_to_4x4 : vlc_viewpoint_t F → Mat4 F)
    (renderer : vlc_gl_renderer F) :
    (getViewpointMatrixes ops viewpoint_to_4x4 renderer
        .PROJECTION_MODE_RECTANGULAR).var.ProjectionMatrix = identity
    ∧ (getViewpointMatrixes ops viewpoint_to_4x4 renderer
        .PROJECTION_MODE_RECTANGULAR).var.ZoomMatrix = identity
    ∧ (getViewpointMatrixes ops viewpoint_to_4x4 renderer
        .PROJECTION_MODE_RECTANGULAR).var.ViewMatrix = identity := by
  refine ⟨?_, ?_, ?_⟩ <;> simp [getViewpointMatrixes]

/-- C3: SetViewpoint with a FOV outside the legal range returns the
invalid-argument error VLC_EBADVAR and returns the renderer completely
unchanged (stored viewpoint, f_fovx, f_fovy, f_z and all matrices). -/
theorem SetViewpoint_invalid_fov_rejected (ops : FloatOps F) (fov_min fov_max : F)
    (rev : vlc_viewpoint_t F → vlc_viewpoint_t F)
    (to4x4 : vlc_viewpoint_t F → Mat4 F)
    (renderer : vlc_gl_renderer F) (p_vp : vlc_viewpoint_t F)
    (h : p_vp.fov > fov_max ∨ p_vp.fov < fov_min) :
    vlc_gl_renderer_SetViewpoint ops fov_min fov_max rev to4x4 renderer p_vp
      = (.VLC_EBADVAR, renderer) := by
  unfold vlc_gl_renderer_SetViewpoint
  rw [if_pos h]

/-- Witness for C3 at a concrete input: FOV 200 with legal range [20, 150]. -/
theorem SetViewpoint_invalid_fov_rejected_witness :
    vlc_gl_renderer_SetViewpoint ratOps 20 150 (fun v => v) (fun _ => identity)
      testRenderer { yaw := 0, pitch := 0, roll := 0, fov := 200 }
      = (.VLC_EBADVAR, testRenderer) :=
  SetViewpoint_invalid_fov_rejected ratOps 20 150 _ _ testRenderer _
    (Or.inl (by norm_num))

/-- Helper: the update performed by UpdateZ and UpdateFOVy leaves f_fovx
untouched, and getViewpointMatrixes only rewrites the var field. -/
theorem getViewpointMatrixes_preserves (ops : FloatOps F)
    (to4x4 : vlc_viewpoint_t F → Mat4 F) (r : vlc_gl_renderer F)
    (mode : video_projection_mode_t) :
    (getViewpointMatrixes ops to4x4 r mode).f_fovx = r.f_fovx
    ∧ (getViewpointMatrixes ops to4x4 r mode).f_fovy = r.f_fovy
    ∧ (getViewpointMatrixes ops to4x4 r mode).f_z = r.f_z
    ∧ (getViewpointMatrixes ops to4x4 r mode).vp = r.vp
    ∧ (getViewpointMatrixes ops to4x4 r mode).fmt_projection_mode
        = r.fmt_projection_mode := by
  unfold getViewpointMatrixes
  split_ifs <;> exact ⟨rfl, rfl, rfl, rfl, rfl⟩

/-- Helper: recomputing the matrices from the state produced by
getViewpointMatrixes yields the same matrices, because only var changed. -/
theorem getViewpointMatrixes_var_idem (ops : FloatOps F)
    (to4x4 : vlc_viewpoint_t F → Mat4 F) (r : vlc_gl_renderer F)
    (mode : video_projection_mode_t) :
    (getViewpointMatrixes ops to4x4 (getViewpointMatrixes ops to4x4 r mode) mode).var
      = (getViewpointMatrixes ops to4x4 r mode).var := by
  unfold getViewpointMatrixes
  split_ifs <;> rfl

/-- Helper: UpdateZ only writes f_z. -/
theorem UpdateZ_preserves (ops : FloatOps F) (fov_max : F) (r : vlc_gl_renderer F) :
    (UpdateZ ops fov_max r).f_fovx = r.f_fovx
    ∧ (UpdateZ ops fov_max r).f_fovy = r.f_fovy
    ∧ (UpdateZ ops fov_max r).vp = r.vp
    ∧ (UpdateZ ops fov_max r).fmt_projection_mode = r.fmt_projection_mode := by
  simp only [UpdateZ]
  split_ifs <;> exact ⟨rfl, rfl, rfl, rfl⟩

/-- Helper: on accepted FOV with a radian change of at least 0.001 the
stored horizontal FOV becomes the new FOV in radians. -/
theorem setViewpoint_accept_fovx_updated (ops : FloatOps F) (fov_min fov_max : F)
    (rev : vlc_viewpoint_t F → vlc_viewpoint_t F)
    (to4x4 : vlc_viewpoint_t F → Mat4 F)
    (renderer : vlc_gl_renderer F) (p_vp : vlc_viewpoint_t F)
    (h : ¬(p_vp.fov > fov_max ∨ p_vp.fov < fov_min))
    (heps : |p_vp.fov * ops.M_PI / 180 - renderer.f_fovx| ≥ 1 / 1000) :
    (vlc_gl_renderer_SetViewpoint ops fov_min fov_max rev to4x4 renderer p_vp).2.f_fovx
      = p_vp.fov * ops.M_PI / 180 := by
  unfold vlc_gl_renderer_SetViewpoint
  rw [if_neg h]
  simp only [if_pos heps]
  rw [(getViewpointMatrixes_preserves ops to4x4 _ _).1,
    (UpdateZ_preserves ops fov_max _).1]
  rfl

/-- Helper: the matrices stored after getViewpointMatrixes are stable
under recomputing them for a mode equal to the state's mode. -/
theorem getViewpointMatrixes_var_recompute (ops : FloatOps F)
    (to4x4 : vlc_viewpoint_t F → Mat4 F) (r : vlc_gl_renderer F)
    (mode : video_projection_mode_t) (hmode : r.fmt_projection_mode = mode) :
    (getViewpointMatrixes ops to4x4 r r.fmt_projection_mode).var
      = (getViewpointMatrixes ops to4x4
          (getViewpointMatrixes ops to4x4 r r.fmt_projection_mode) mode).var := by
  subst hmode
  exact (getViewpointMatrixes_var_idem ops to4x4 r r.fmt_projection_mode).symm

/-- C4 (amended): SetViewpoint with FOV in the legal range succeeds,
stores the reversed viewpoint, keeps the projection mode and always
leaves the matrices equal to a fresh recomputation for the active mode,
and updates the stored horizontal FOV (with the derived vertical FOV and
minimum zoom) exactly when the new FOV in radians differs from the
previous stored value by at least the 0.001-radian epsilon (the source
uses a greater-or-equal comparison, not a strict one). -/
theorem SetViewpoint_valid_fov_spec (ops : FloatOps F) (fov_min fov_max : F)
    (rev : vlc_viewpoint_t F → vlc_viewpoint_t F)
    (to4x4 : vlc_viewpoint_t F → Mat4 F)
    (renderer : vlc_gl_renderer F) (p_vp : vlc_viewpoint_t F)
    (out : vlc_result × vlc_gl_renderer F)
    (hout : out = vlc_gl_renderer_SetViewpoint ops fov_min fov_max rev to4x4 renderer p_vp)
    (h : ¬(p_vp.fov > fov_max ∨ p_vp.fov < fov_min)) :
    out.1 = .VLC_SUCCESS
    ∧ out.2.vp = rev p_vp
    ∧ out.2.fmt_projection_mode = renderer.fmt_projection_mode
    ∧ out.2.var
        = (getViewpointMatrixes ops to4x4 out.2 renderer.fmt_projection_mode).var
    ∧ (|p_vp.fov * ops.M_PI / 180 - renderer.f_fovx| ≥ 1 / 1000 →
        out.2.f_fovx = p_vp.fov * ops.M_PI / 180
        ∧ out.2.f_fovy
            = 2 * ops.atanf (ops.tanf (p_vp.fov * ops.M_PI / 180 / 2) / renderer.f_sar)
        ∧ out.2.f_z = (UpdateZ ops fov_max (UpdateFOVy ops
            { renderer with vp := rev p_vp,
                            f_fovx := p_vp.fov * ops.M_PI / 180 })).f_z)
    ∧ (|p_vp.fov * ops.M_PI / 180 - renderer.f_fovx| < 1 / 1000 →
        out.2.f_fovx = renderer.f_fovx
        ∧ out.2.f_fovy = renderer.f_fovy
        ∧ out.2.f_z = renderer.f_z) := by
  subst hout
  unfold vlc_gl_renderer_SetViewpoint
  rw [if_neg h]
  by_cases heps : |p_vp.fov * ops.M_PI / 180 - renderer.f_fovx| ≥ 1 / 1000
  · simp only [if_pos heps]
    refine ⟨trivial, ?_, ?_, ?_, fun _ => ⟨?_, ?_, ?_⟩,
      fun hlt => absurd hlt (not_lt.mpr heps)⟩
    · exact ((getViewpointMatrixes_preserves ops to4x4 _ _).2.2.2.1).trans
        (((UpdateZ_preserves ops fov_max _).2.2.1).trans rfl)
    · exact ((getViewpointMatrixes_preserves ops to4x4 _ _).2.2.2.2).trans
        (((UpdateZ_preserves ops fov_max _).2.2.2).trans rfl)
    · exact getViewpointMatrixes_var_recompute ops to4x4 _ _
        ((UpdateZ_preserves ops fov_max _).2.2.2)
    · exact ((getViewpointMatrixes_preserves ops to4x4 _ _).1).trans
        (((UpdateZ_preserves ops fov_max _).1).trans rfl)
    · exact ((getViewpointMatrixes_preserves ops to4x4 _ _).2.1).trans
        (((UpdateZ_preserves ops fov_max _).2.1).trans rfl)
    · exact ((getViewpointMatrixes_preserves ops to4x4 _ _).2.2.1).trans rfl
  · simp only [if_neg heps]
    refine ⟨trivial, ?_, ?_, ?_, fun hge => absurd hge heps, fun _ => ⟨?_, ?_, ?_⟩⟩
    · exact ((getViewpointMatrixes_preserves ops to4x4 _ _).2.2.2.1).trans rfl
    · exact ((getViewpointMatrixes_preserves ops to4x4 _ _).2.2.2.2).trans rfl
    · exact getViewpointMatrixes_var_recompute ops to4x4 _ _ rfl
    · exact ((getViewpointMatrixes_preserves ops to4x4 _ _).1).trans rfl
    · exact ((getViewpointMatrixes_preserves ops to4x4 _ _).2.1).trans rfl
    · exact ((getViewpointMatrixes_preserves ops to4x4 _ _).2.2.1).trans rfl

/-- Witness for C4 at a concrete input: FOV 100 in range [20, 150] from a
state with stored FOV 0 (radian change 5/3, beyond the epsilon). -/
theorem SetViewpoint_valid_fov_spec_witness :
    (vlc_gl_renderer_SetViewpoint ratOps 20 150 (fun v => v) (fun _ => identity)
        testRenderer { yaw := 0, pitch := 0, roll := 0, fov := 100 }).1 = .VLC_SUCCESS
    ∧ (vlc_gl_renderer_SetViewpoint ratOps 20 150 (fun v => v) (fun _ => identity)
        testRenderer { yaw := 0, pitch := 0, roll := 0, fov := 100 }).2.f_fovx
      = 100 * ratOps.M_PI / 180 := by
  have h := SetViewpoint_valid_fov_spec ratOps 20 150 (fun v => v) (fun _ => identity)
    testRenderer { yaw := 0, pitch := 0, roll := 0, fov := 100 } _ rfl (by norm_num)
  exact ⟨h.1, (h.2.2.2.2.1 (by norm_num [ratOps, testRenderer, abs_of_pos])).1⟩

/-- Counterexample for C4 as frozen: it asks for an update only when the
radian change is strictly more than 0.001, but at a change of exactly
0.001 (FOV 100 degrees against a stored FOV 0.001 radian below it, with
M_PI the exact rational value of the double constant) the source still
updates the stored FOV, because it compares with greater-or-equal. -/
theorem SetViewpoint_epsilon_strict_counterexample :
    ¬(|(100 : ℚ) * (884279719003555 / 281474976710656) / 180
        - (100 * (884279719003555 / 281474976710656) / 180 - 1 / 1000)| > 1 / 1000)
    ∧ ¬((100 : ℚ) > 150 ∨ (100 : ℚ) < 20)
    ∧ (vlc_gl_renderer_SetViewpoint
        { ratOps with M_PI := 884279719003555 / 281474976710656 } 20 150
        (fun v => v) (fun _ => identity)
        { testRenderer with
            f_fovx := 100 * (884279719003555 / 281474976710656) / 180 - 1 / 1000 }
        { yaw := 0, pitch := 0, roll := 0, fov := 100 }).2.f_fovx
      ≠ 100 * (884279719003555 / 281474976710656) / 180 - 1 / 1000 := by
  refine ⟨?_, by norm_num, ?_⟩
  · rw [show (100 : ℚ) * (884279719003555 / 281474976710656) / 180
        - (100 * (884279719003555 / 281474976710656) / 180 - 1 / 1000) = 1 / 1000 by ring]
    rw [abs_of_pos (by norm_num : (0 : ℚ) < 1 / 1000)]
    exact lt_irrefl _
  · rw [setViewpoint_accept_fovx_updated _ _ _ _ _ _ _ (by norm_num) (by
      show |(100 : ℚ) * (884279719003555 / 281474976710656) / 180
          - (100 * (884279719003555 / 281474976710656) / 180 - 1 / 1000)| ≥ 1 / 1000
      rw [show (100 : ℚ) * (884279719003555 / 281474976710656) / 180
          - (100 * (884279719003555 / 281474976710656) / 180 - 1 / 1000) = 1 / 1000 by ring]
      rw [abs_of_pos (by norm_num : (0 : ℚ) < 1 / 1000)])]
    show (100 : ℚ) * (884279719003555 / 281474976710656) / 180
        ≠ 100 * (884279719003555 / 281474976710656) / 180 - 1 / 1000
    exact ne_of_gt (sub_lt_self _ (by norm_num))

/-- C9: UpdateZ forces f_z to 0 whenever the horizontal FOV is at most
90 degrees; above the threshold f_z is the linear interpolation between
the 90-degree threshold and the maximum legal FOV, clamped at
z_min = -radius / sin(atan(sqrt(tan^2(fovx/2) + tan^2(fovy/2)))); and at
the configured maximum FOV, f_z equals that z_min exactly. -/
theorem UpdateZ_spec (ops : FloatOps F) (fov_max : F) (renderer : vlc_gl_renderer F) :
    (renderer.f_fovx ≤ 90 * ops.M_PI / 180 →
      (UpdateZ ops fov_max renderer).f_z = 0)
    ∧ (90 * ops.M_PI / 180 < renderer.f_fovx →
      (UpdateZ ops fov_max renderer).f_z =
        max (sphere_z_min ops renderer.f_fovx renderer.f_fovy
              / ((fov_max - 90) * ops.M_PI / 180) * renderer.f_fovx
            - sphere_z_min ops renderer.f_fovx renderer.f_fovy
              / ((fov_max - 90) * ops.M_PI / 180) * 90 * ops.M_PI / 180)
          (sphere_z_min ops renderer.f_fovx renderer.f_fovy))
    ∧ (0 < ops.M_PI → 90 < fov_max →
      renderer.f_fovx = fov_max * ops.M_PI / 180 →
      (UpdateZ ops fov_max renderer).f_z
        = sphere_z_min ops renderer.f_fovx renderer.f_fovy) := by
  refine ⟨?_, ?_, ?_⟩
  · intro h
    simp only [UpdateZ, sphere_z_min]
    rw [if_pos h]
  · intro h
    simp only [UpdateZ, sphere_z_min]
    rw [if_neg (not_le.mpr h)]
    dsimp only
    split_ifs with h2
    · exact (max_eq_right (le_of_lt h2)).symm
    · exact (max_eq_left (not_lt.mp h2)).symm
  · intro hpi hmax heq
    have hden : ((fov_max - 90) * ops.M_PI / 180 : F) ≠ 0 :=
      ne_of_gt (div_pos (mul_pos (sub_pos.mpr hmax) hpi) (by norm_num))
    have hgt : 90 * ops.M_PI / 180 < renderer.f_fovx := by
      rw [heq]
      calc (90 : F) * ops.M_PI / 180 = 90 * (ops.M_PI / 180) := by ring
        _ < fov_max * (ops.M_PI / 180) :=
            mul_lt_mul_of_pos_right hmax (div_pos hpi (by norm_num))
        _ = fov_max * ops.M_PI / 180 := by ring
    simp only [UpdateZ, sphere_z_min]
    rw [if_neg (not_le.mpr hgt)]
    dsimp only
    generalize (-SPHERE_RADIUS / ops.sinf (ops.atanf (ops.sqrtf
        (ops.tanf (renderer.f_fovx / 2) * ops.tanf (renderer.f_fovx / 2)
          + ops.tanf (renderer.f_fovy / 2) * ops.tanf (renderer.f_fovy / 2)))) : F) = Z
    have hstep : Z / ((fov_max - 90) * ops.M_PI / 180) * renderer.f_fovx
        - Z / ((fov_max - 90) * ops.M_PI / 180) * 90 * ops.M_PI / 180 = Z := by
      have h1 : renderer.f_fovx - 90 * ops.M_PI / 180
          = (fov_max - 90) * ops.M_PI / 180 := by rw [heq]; ring
      calc Z / ((fov_max - 90) * ops.M_PI / 180) * renderer.f_fovx
            - Z / ((fov_max - 90) * ops.M_PI / 180) * 90 * ops.M_PI / 180
          = Z / ((fov_max - 90) * ops.M_PI / 180)
              * (renderer.f_fovx - 90 * ops.M_PI / 180) := by ring
        _ = Z / ((fov_max - 90) * ops.M_PI / 180)
              * ((fov_max - 90) * ops.M_PI / 180) := by rw [h1]
        _ = Z := div_mul_cancel₀ Z hden
    rw [hstep, if_neg (lt_irrefl Z)]

/-- Witness for C9 at concrete inputs: with the rational stand-in float
operations and maximum FOV 150, a state at the maximum FOV yields
f_z = z_min = -16/25, and a state with FOV 1 radian yields f_z = 0. -/
theorem UpdateZ_spec_witness :
    (UpdateZ ratOps 150 { testRenderer with f_fovx := 5 / 2 }).f_z
      = sphere_z_min ratOps (5 / 2) 0
    ∧ (UpdateZ ratOps 150 { testRenderer with f_fovx := 1 }).f_z = 0 :=
  ⟨(UpdateZ_spec ratOps 150 { testRenderer with f_fovx := 5 / 2 }).2.2
      (by norm_num [ratOps]) (by norm_num) (by norm_num [ratOps]),
   (UpdateZ_spec ratOps 150 { testRenderer with f_fovx := 1 }).1
      (by norm_num [ratOps])⟩

/-- Helper: no allocation is held after the empty event sequence. -/
theorem liveAfter_nil : liveAfter [] = 0 := rfl

/-- Helper: no allocation is held after allocating and freeing vertices. -/
theorem liveAfter_pair :
    liveAfter [.alloc .vertex, .free .vertex] = 0 := by decide

/-- Helper: no allocation is held after allocating vertices and texture
coordinates and freeing both. -/
theorem liveAfter_quad :
    liveAfter [.alloc .vertex, .alloc .texture, .free .texture, .free .vertex]
      = 0 := by decide

/-- Helper: BuildSphere on any failing allocation reports VLC_ENOMEM and
holds no allocation afterwards. -/
theorem BuildSphere_alloc_fail (alloc : AllocOracle) (nbPlanes : ℕ)
    (ops : FloatOps F) (left top right bottom : ℕ → F)
    (h : alloc.vertexOk = false ∨ alloc.textureOk = false ∨ alloc.indicesOk = false) :
    (BuildSphere alloc nbPlanes ops left top right bottom).1 = .error .VLC_ENOMEM
    ∧ liveAfter (BuildSphere alloc nbPlanes ops left top right bottom).2 = 0 := by
  obtain ⟨v, t, ix⟩ := alloc
  cases v <;> cases t <;> cases ix <;>
    first
      | exact ⟨rfl, liveAfter_nil⟩
      | exact ⟨rfl, liveAfter_pair⟩
      | exact ⟨rfl, liveAfter_quad⟩
      | simp at h

/-- Helper: BuildRectangle on any failing allocation reports VLC_ENOMEM
and holds no allocation afterwards. -/
theorem BuildRectangle_alloc_fail (alloc : AllocOracle) (nbPlanes : ℕ)
    (left top right bottom : ℕ → F)
    (h : alloc.vertexOk = false ∨ alloc.textureOk = false ∨ alloc.indicesOk = false) :
    (BuildRectangle alloc nbPlanes left top right bottom).1 = .error .VLC_ENOMEM
    ∧ liveAfter (BuildRectangle alloc nbPlanes left top right bottom).2 = 0 := by
  obtain ⟨v, t, ix⟩ := alloc
  cases v <;> cases t <;> cases ix <;>
    first
      | exact ⟨rfl, liveAfter_nil⟩
      | exact ⟨rfl, liveAfter_pair⟩
      | exact ⟨rfl, liveAfter_quad⟩
      | simp at h

/-- Helper: BuildCube on any failing allocation reports VLC_ENOMEM and
holds no allocation afterwards. -/
theorem BuildCube_alloc_fail (alloc : AllocOracle) (nbPlanes : ℕ) (padW padH : F)
    (left top right bottom : ℕ → F)
    (h : alloc.vertexOk = false ∨ alloc.textureOk = false ∨ alloc.indicesOk = false) :
    (BuildCube alloc nbPlanes padW padH left top right bottom).1 = .error .VLC_ENOMEM
    ∧ liveAfter (BuildCube alloc nbPlanes padW padH left top right bottom).2 = 0 := by
  obtain ⟨v, t, ix⟩ := alloc
  cases v <;> cases t <;> cases ix <;>
    first
      | exact ⟨rfl, liveAfter_nil⟩
      | exact ⟨rfl, liveAfter_pair⟩
      | exact ⟨rfl, liveAfter_quad⟩
      | simp at h

/-- Helper: SetupCoords under a failing allocation reports VLC_ENOMEM and
returns the renderer unchanged (no GPU buffer is uploaded), whatever the
projection mode. -/
theorem SetupCoords_alloc_fail (ops : FloatOps F) (alloc : AllocOracle)
    (renderer : vlc_gl_renderer F) (left top right bottom : ℕ → F)
    (h : alloc.vertexOk = false ∨ alloc.textureOk = false ∨ alloc.indicesOk = false) :
    SetupCoords ops alloc renderer left top right bottom
      = (.VLC_ENOMEM, renderer) := by
  unfold SetupCoords
  cases hmode : renderer.fmt_projection_mode <;> simp only [hmode]
  · rw [(BuildRectangle_alloc_fail alloc renderer.interop_tex_count
      left top right bottom h).1]
  · rw [(BuildSphere_alloc_fail alloc renderer.interop_tex_count ops
      left top right bottom h).1]
  · rw [(BuildCube_alloc_fail alloc renderer.interop_tex_count
      (renderer.fmt_i_cubemap_padding / renderer.fmt_i_width)
      (renderer.fmt_i_cubemap_padding / renderer.fmt_i_height)
      left top right bottom h).1]

/-- C7: when any of the three mesh allocations fails, every mesh builder
frees whatever it had already allocated and returns VLC_ENOMEM; the
SetupCoords dispatcher propagates the error without uploading anything
(the renderer, including its GPU buffers, is unchanged); and a Draw that
triggers the rebuild reports the error with the previously uploaded mesh
buffers and the last-source snapshot intact. -/
theorem mesh_alloc_failure_spec (ops : FloatOps F) (alloc : AllocOracle)
    (nbPlanes : ℕ) (padW padH : F) (left top right bottom : ℕ → F)
    (renderer : vlc_gl_renderer F) (source : video_format_t)
    (h : alloc.vertexOk = false ∨ alloc.textureOk = false ∨ alloc.indicesOk = false) :
    ((BuildSphere alloc nbPlanes ops left top right bottom).1 = .error .VLC_ENOMEM
      ∧ liveAfter (BuildSphere alloc nbPlanes ops left top right bottom).2 = 0)
    ∧ ((BuildRectangle alloc nbPlanes left top right bottom).1 = .error .VLC_ENOMEM
      ∧ liveAfter (BuildRectangle alloc nbPlanes left top right bottom).2 = 0)
    ∧ ((BuildCube alloc nbPlanes padW padH left top right bottom).1
        = .error .VLC_ENOMEM
      ∧ liveAfter (BuildCube alloc nbPlanes padW padH left top right bottom).2 = 0)
    ∧ SetupCoords ops alloc renderer left top right bottom = (.VLC_ENOMEM, renderer)
    ∧ ((source.i_x_offset ≠ renderer.last_source.i_x_offset
        ∨ source.i_y_offset ≠ renderer.last_source.i_y_offset
        ∨ source.i_visible_width ≠ renderer.last_source.i_visible_width
        ∨ source.i_visible_height ≠ renderer.last_source.i_visible_height) →
      vlc_gl_renderer_Draw ops alloc renderer source
        = (.VLC_ENOMEM, renderer, true)) := by
  refine ⟨BuildSphere_alloc_fail alloc nbPlanes ops left top right bottom h,
    BuildRectangle_alloc_fail alloc nbPlanes left top right bottom h,
    BuildCube_alloc_fail alloc nbPlanes padW padH left top right bottom h,
    SetupCoords_alloc_fail ops alloc renderer left top right bottom h, ?_⟩
  intro hchg
  unfold vlc_gl_renderer_Draw
  rw [if_pos hchg]
  simp only [SetupCoords_alloc_fail ops alloc renderer _ _ _ _ h]
  rw [if_pos (show (vlc_result.VLC_ENOMEM, renderer).1 ≠ .VLC_SUCCESS from by
    intro hc
    exact vlc_result.noConfusion hc)]

/-- Witness for C7 at a concrete input: the vertex allocation fails. -/
theorem mesh_alloc_failure_spec_witness :
    (BuildSphere ⟨false, true, true⟩ 1 ratOps (fun _ => 0) (fun _ => 0)
        (fun _ => 1) (fun _ => 1)).1 = .error .VLC_ENOMEM
    ∧ SetupCoords ratOps ⟨false, true, true⟩ testRenderer (fun _ => 0) (fun _ => 0)
        (fun _ => 1) (fun _ => 1) = (.VLC_ENOMEM, testRenderer)
    ∧ vlc_gl_renderer_Draw ratOps ⟨false, true, true⟩ testRenderer
        { i_x_offset := 1, i_y_offset := 0, i_visible_width := 0, i_visible_height := 0 }
        = (.VLC_ENOMEM, testRenderer, true) := by
  have H := mesh_alloc_failure_spec ratOps ⟨false, true, true⟩ 1 0 0
    (fun _ => 0) (fun _ => 0) (fun _ => 1) (fun _ => 1) testRenderer
    { i_x_offset := 1, i_y_offset := 0, i_visible_width := 0, i_visible_height := 0 }
    (Or.inl rfl)
  exact ⟨H.1.1, H.2.2.2.1, H.2.2.2.2 (Or.inl (by decide))⟩

/-- C8: the stereo crop in top-bottom multiview mode halves the height of
every plane's sampling rectangle, keeping the top offset and the
left/right edges; side-by-side mode halves the width, keeping the left
offset and the top/bottom edges. -/
theorem TextureCropForStereo_spec (renderer : vlc_gl_renderer F)
    (left top right bottom : ℕ → F) (i : ℕ)
    (hi : i < renderer.interop_tex_count) :
    (renderer.fmt_multiview_mode = .MULTIVIEW_STEREO_TB →
      (TextureCropForStereo renderer left top right bottom).1 i = left i
      ∧ (TextureCropForStereo renderer left top right bottom).2.2.1 i = right i
      ∧ (TextureCropForStereo renderer left top right bottom).2.1 i = top i
      ∧ (TextureCropForStereo renderer left top right bottom).2.2.2 i
          - (TextureCropForStereo renderer left top right bottom).2.1 i
        = (bottom i - top i) / 2)
    ∧ (renderer.fmt_multiview_mode = .MULTIVIEW_STEREO_SBS →
      (TextureCropForStereo renderer left top right bottom).2.1 i = top i
      ∧ (TextureCropForStereo renderer left top right bottom).2.2.2 i = bottom i
      ∧ (TextureCropForStereo renderer left top right bottom).1 i = left i
      ∧ (TextureCropForStereo renderer left top right bottom).2.2.1 i
          - (TextureCropForStereo renderer left top right bottom).1 i
        = (right i - left i) / 2) := by
  constructor
  · intro hmode
    simp only [TextureCropForStereo, GetTextureCropParamsForStereo, hmode,
      if_pos hi]
    refine ⟨by ring, by ring, by ring, by ring⟩
  · intro hmode
    simp only [TextureCropForStereo, GetTextureCropParamsForStereo, hmode,
      if_pos hi]
    refine ⟨by ring, by ring, by ring, by ring⟩

/-- Witness for C8 at a concrete input: the unit rectangle on plane 0 in
both stereo modes. -/
theorem TextureCropForStereo_spec_witness :
    ((TextureCropForStereo
        { testRenderer with fmt_multiview_mode := .MULTIVIEW_STEREO_TB }
        (fun _ => 0) (fun _ => 0) (fun _ => 1) (fun _ => 1)).2.2.2 0
      - (TextureCropForStereo
        { testRenderer with fmt_multiview_mode := .MULTIVIEW_STEREO_TB }
        (fun _ => 0) (fun _ => 0) (fun _ => 1) (fun _ => 1)).2.1 0
      = ((1 : ℚ) - 0) / 2)
    ∧ ((TextureCropForStereo
        { testRenderer with fmt_multiview_mode := .MULTIVIEW_STEREO_SBS }
        (fun _ => 0) (fun _ => 0) (fun _ => 1) (fun _ => 1)).2.2.1 0
      - (TextureCropForStereo
        { testRenderer with fmt_multiview_mode := .MULTIVIEW_STEREO_SBS }
        (fun _ => 0) (fun _ => 0) (fun _ => 1) (fun _ => 1)).1 0
      = ((1 : ℚ) - 0) / 2) :=
  ⟨((TextureCropForStereo_spec
      { testRenderer with fmt_multiview_mode := .MULTIVIEW_STEREO_TB }
      (fun _ => 0) (fun _ => 0) (fun _ => 1) (fun _ => 1) 0
      (by norm_num [testRenderer])).1 rfl).2.2.2,
   ((TextureCropForStereo_spec
      { testRenderer with fmt_multiview_mode := .MULTIVIEW_STEREO_SBS }
      (fun _ => 0) (fun _ => 0) (fun _ => 1) (fun _ => 1) 0
      (by norm_num [testRenderer])).2 rfl).2.2.2⟩

/-- C10: every entry of the index array of BuildSphere is strictly below
the vertex count (nbLatBands+1)*(nbLonBands+1) = 16641 (hence in
particular representable as a GLushort), even though the write offset is
computed with nbLatBands where the longitude band count is meant, the two
being equal (128). -/
theorem BuildSphere_indices_bound (i : ℕ)
    (hi : i < nbLatBands * nbLonBands * 3 * 2) :
    BuildSphere_indices i < (nbLatBands + 1) * (nbLonBands + 1) := by
  unfold nbLatBands nbLonBands at hi ⊢
  simp only [BuildSphere_indices, nbLatBands, nbLonBands]
  have h6 : i / 6 ≤ 16383 := by omega
  have hlat : i / 6 / 128 ≤ 127 := by omega
  have hlon : i / 6 % 128 ≤ 127 := by omega
  have hfirst : i / 6 / 128 * (128 + 1) + i / 6 % 128 ≤ 16510 := by omega
  split_ifs <;>
    · rw [Nat.mod_eq_of_lt (by omega)]
      omega

/-- Witness for C10 at a concrete input: index position 0. -/
theorem BuildSphere_indices_bound_witness :
    BuildSphere_indices 0 < (nbLatBands + 1) * (nbLonBands + 1) :=
  BuildSphere_indices_bound 0 (by norm_num [nbLatBands, nbLonBands])

/-- Helper: inverting the vertexCoord write offset
off1 = (lat * (nbLonBands + 1) + lon) * 3 recovers the three coordinates
of the (lat, lon) vertex. -/
theorem BuildSphere_vertexCoord_decode (ops : FloatOps F) (lat lon : ℕ)
    (hlon : lon ≤ nbLonBands) :
    BuildSphere_vertexCoord ops ((lat * (nbLonBands + 1) + lon) * 3 + 0)
      = (sphereVertex ops lat lon).1
    ∧ BuildSphere_vertexCoord ops ((lat * (nbLonBands + 1) + lon) * 3 + 1)
      = (sphereVertex ops lat lon).2.1
    ∧ BuildSphere_vertexCoord ops ((lat * (nbLonBands + 1) + lon) * 3 + 2)
      = (sphereVertex ops lat lon).2.2 := by
  have e0 : ((lat * (nbLonBands + 1) + lon) * 3 + 0) % 3 = 0 := by
    unfold nbLonBands; omega
  have d0 : ((lat * (nbLonBands + 1) + lon) * 3 + 0) / 3
      = lat * (nbLonBands + 1) + lon := by unfold nbLonBands; omega
  have e1 : ((lat * (nbLonBands + 1) + lon) * 3 + 1) % 3 = 1 := by
    unfold nbLonBands; omega
  have d1 : ((lat * (nbLonBands + 1) + lon) * 3 + 1) / 3
      = lat * (nbLonBands + 1) + lon := by unfold nbLonBands; omega
  have e2 : ((lat * (nbLonBands + 1) + lon) * 3 + 2) % 3 = 2 := by
    unfold nbLonBands; omega
  have d2 : ((lat * (nbLonBands + 1) + lon) * 3 + 2) / 3
      = lat * (nbLonBands + 1) + lon := by unfold nbLonBands; omega
  have dl : (lat * (nbLonBands + 1) + lon) / (nbLonBands + 1) = lat := by
    unfold nbLonBands at hlon ⊢; omega
  have ml : (lat * (nbLonBands + 1) + lon) % (nbLonBands + 1) = lon := by
    unfold nbLonBands at hlon ⊢; omega
  refine ⟨?_, ?_, ?_⟩
  · simp only [BuildSphere_vertexCoord, e0, d0, dl, ml]
    simp
  · simp only [BuildSphere_vertexCoord, e1, d1, dl, ml]
    simp
  · simp only [BuildSphere_vertexCoord, e2, d2, dl, ml]
    simp

/-- Helper: the vertex of BuildSphere written as the specification's
formula radius * (cos phi * sin theta, cos theta, sin phi * sin theta)
with theta = lat*pi/128 and phi = lon*2*pi/128. -/
theorem sphereVertex_formula (ops : FloatOps F) (lat lon : ℕ) :
    sphereVertex ops lat lon
      = (SPHERE_RADIUS * (ops.cosf ((lon : F) * 2 * ops.M_PI / 128)
            * ops.sinf ((lat : F) * ops.M_PI / 128)),
         SPHERE_RADIUS * ops.cosf ((lat : F) * ops.M_PI / 128),
         SPHERE_RADIUS * (ops.sinf ((lon : F) * 2 * ops.M_PI / 128)
            * ops.sinf ((lat : F) * ops.M_PI / 128))) := by
  simp only [sphereVertex, nbLatBands, nbLonBands, Nat.cast_ofNat]

/-- C5: BuildSphere on successful allocation produces exactly
(128+1)*(128+1) = 16641 vertices and 128*128*6 = 98304 indices; with the
real trigonometric functions, the vertex stored for band (lat, lon) is
radius * (cos phi * sin theta, cos theta, sin phi * sin theta) with
theta = lat*pi/128 and phi = lon*2*pi/128, and therefore every vertex
lies at distance radius = 1 from the origin (exactly, in the real-number
idealisation of float arithmetic). -/
theorem BuildSphere_success_spec (nbPlanes : ℕ)
    (left top right bottom : ℕ → ℝ) (m : MeshResult ℝ)
    (hm : (BuildSphere ⟨true, true, true⟩ nbPlanes
        { tanf := Real.tan, sinf := Real.sin, cosf := Real.cos,
          atanf := Real.arctan, sqrtf := Real.sqrt, M_PI := Real.pi }
        left top right bottom).1 = .ok m) :
    m.nbVertices = 16641
    ∧ m.nbIndices = 98304
    ∧ (∀ lat lon : ℕ, lat ≤ 128 → lon ≤ 128 →
        m.vertexCoord ((lat * (nbLonBands + 1) + lon) * 3 + 0)
          = SPHERE_RADIUS * (Real.cos ((lon : ℝ) * 2 * Real.pi / 128)
              * Real.sin ((lat : ℝ) * Real.pi / 128))
        ∧ m.vertexCoord ((lat * (nbLonBands + 1) + lon) * 3 + 1)
          = SPHERE_RADIUS * Real.cos ((lat : ℝ) * Real.pi / 128)
        ∧ m.vertexCoord ((lat * (nbLonBands + 1) + lon) * 3 + 2)
          = SPHERE_RADIUS * (Real.sin ((lon : ℝ) * 2 * Real.pi / 128)
              * Real.sin ((lat : ℝ) * Real.pi / 128)))
    ∧ (∀ lat lon : ℕ, lat ≤ 128 → lon ≤ 128 →
        m.vertexCoord ((lat * (nbLonBands + 1) + lon) * 3 + 0) ^ 2
        + m.vertexCoord ((lat * (nbLonBands + 1) + lon) * 3 + 1) ^ 2
        + m.vertexCoord ((lat * (nbLonBands + 1) + lon) * 3 + 2) ^ 2
        = SPHERE_RADIUS ^ 2) := by
  have hrec : (BuildSphere ⟨true, true, true⟩ nbPlanes
      { tanf := Real.tan, sinf := Real.sin, cosf := Real.cos,
        atanf := Real.arctan, sqrtf := Real.sqrt, M_PI := Real.pi }
      left top right bottom).1 = Except.ok
      { nbVertices := (nbLatBands + 1) * (nbLonBands + 1)
        nbIndices := nbLatBands * nbLonBands * 3 * 2
        vertexCoord := BuildSphere_vertexCoord
          { tanf := Real.tan, sinf := Real.sin, cosf := Real.cos,
            atanf := Real.arctan, sqrtf := Real.sqrt, M_PI := Real.pi }
        textureCoord := BuildSphere_textureCoord left top right bottom
        indices := BuildSphere_indices } := rfl
  injection hm.symm.trans hrec with hmr
  subst hmr
  dsimp only
  refine ⟨by norm_num [nbLatBands, nbLonBands],
    by norm_num [nbLatBands, nbLonBands], ?_, ?_⟩
  · intro lat lon hlat hlon
    have hlon' : lon ≤ nbLonBands := by unfold nbLonBands; omega
    obtain ⟨d0, d1, d2⟩ := BuildSphere_vertexCoord_decode
      { tanf := Real.tan, sinf := Real.sin, cosf := Real.cos,
        atanf := Real.arctan, sqrtf := Real.sqrt, M_PI := Real.pi } lat lon hlon'
    rw [d0, d1, d2, sphereVertex_formula]
    exact ⟨rfl, rfl, rfl⟩
  · intro lat lon hlat hlon
    have hlon' : lon ≤ nbLonBands := by unfold nbLonBands; omega
    obtain ⟨d0, d1, d2⟩ := BuildSphere_vertexCoord_decode
      { tanf := Real.tan, sinf := Real.sin, cosf := Real.cos,
        atanf := Real.arctan, sqrtf := Real.sqrt, M_PI := Real.pi } lat lon hlon'
    rw [d0, d1, d2, sphereVertex_formula]
    dsimp only
    simp only [SPHERE_RADIUS, one_mul]
    linear_combination (Real.sin ((lat : ℝ) * Real.pi / 128)) ^ 2
        * Real.sin_sq_add_cos_sq ((lon : ℝ) * 2 * Real.pi / 128)
      + Real.sin_sq_add_cos_sq ((lat : ℝ) * Real.pi / 128)

/-- Witness for C5 at a concrete input: one plane, zero/unit sampling
rectangles, allocation succeeding. -/
theorem BuildSphere_success_spec_witness :
    (BuildSphere ⟨true, true, true⟩ 1
        { tanf := Real.tan, sinf := Real.sin, cosf := Real.cos,
          atanf := Real.arctan, sqrtf := Real.sqrt, M_PI := Real.pi }
        (fun _ => (0 : ℝ)) (fun _ => 0) (fun _ => 1) (fun _ => 1)).1
      = Except.ok
        { nbVertices := (nbLatBands + 1) * (nbLonBands + 1)
          nbIndices := nbLatBands * nbLonBands * 3 * 2
          vertexCoord := BuildSphere_vertexCoord
            { tanf := Real.tan, sinf := Real.sin, cosf := Real.cos,
              atanf := Real.arctan, sqrtf := Real.sqrt, M_PI := Real.pi }
          textureCoord := BuildSphere_textureCoord
            (fun _ => 0) (fun _ => 0) (fun _ => 1) (fun _ => 1)
          indices := BuildSphere_indices }
    ∧ ({ nbVertices := (nbLatBands + 1) * (nbLonBands + 1)
         nbIndices := nbLatBands * nbLonBands * 3 * 2
         vertexCoord := BuildSphere_vertexCoord
           { tanf := Real.tan, sinf := Real.sin, cosf := Real.cos,
             atanf := Real.arctan, sqrtf := Real.sqrt, M_PI := Real.pi }
         textureCoord := BuildSphere_textureCoord
           (fun _ => 0) (fun _ => 0) (fun _ => 1) (fun _ => 1)
         indices := BuildSphere_indices } : MeshResult ℝ).nbVertices = 16641 := by
  have h := BuildSphere_success_spec 1
    (fun _ => (0 : ℝ)) (fun _ => 0) (fun _ => 1) (fun _ => 1)
    { nbVertices := (nbLatBands + 1) * (nbLonBands + 1)
      nbIndices := nbLatBands * nbLonBands * 3 * 2
      vertexCoord := BuildSphere_vertexCoord
        { tanf := Real.tan, sinf := Real.sin, cosf := Real.cos,
          atanf := Real.arctan, sqrtf := Real.sqrt, M_PI := Real.pi }
      textureCoord := BuildSphere_textureCoord
        (fun _ => 0) (fun _ => 0) (fun _ => 1) (fun _ => 1)
      indices := BuildSphere_indices } rfl
  exact ⟨rfl, h.1⟩

/-- Helper: the rebuild flag of Draw is set exactly when the incoming
visible rectangle differs from the last-drawn snapshot. -/
theorem Draw_flag_iff (ops : FloatOps F) (alloc : AllocOracle)
    (renderer : vlc_gl_renderer F) (source : video_format_t) :
    (vlc_gl_renderer_Draw ops alloc renderer source).2.2 = true ↔
      (source.i_x_offset ≠ renderer.last_source.i_x_offset
        ∨ source.i_y_offset ≠ renderer.last_source.i_y_offset
        ∨ source.i_visible_width ≠ renderer.last_source.i_visible_width
        ∨ source.i_visible_height ≠ renderer.last_source.i_visible_height) := by
  by_cases hchg : (source.i_x_offset ≠ renderer.last_source.i_x_offset
      ∨ source.i_y_offset ≠ renderer.last_source.i_y_offset
      ∨ source.i_visible_width ≠ renderer.last_source.i_visible_width
      ∨ source.i_visible_height ≠ renderer.last_source.i_visible_height)
  · unfold vlc_gl_renderer_Draw
    rw [if_pos hchg]
    dsimp only
    split_ifs <;> simp [hchg]
  · unfold vlc_gl_renderer_Draw
    rw [if_neg hchg]
    simp [hchg]

/-- Helper: Draw with an unchanged visible rectangle succeeds, leaves the
renderer unchanged, and performs no rebuild. -/
theorem Draw_no_change (ops : FloatOps F) (alloc : AllocOracle)
    (r : vlc_gl_renderer F) (source : video_format_t)
    (h : ¬(source.i_x_offset ≠ r.last_source.i_x_offset
      ∨ source.i_y_offset ≠ r.last_source.i_y_offset
      ∨ source.i_visible_width ≠ r.last_source.i_visible_width
      ∨ source.i_visible_height ≠ r.last_source.i_visible_height)) :
    vlc_gl_renderer_Draw ops alloc r source = (.VLC_SUCCESS, r, false) := by
  unfold vlc_gl_renderer_Draw
  rw [if_neg h]

/-- Helper: a second Draw with the same source after a successful Draw
does not rebuild. -/
theorem Draw_twice_no_rebuild (ops : FloatOps F) (alloc : AllocOracle)
    (renderer : vlc_gl_renderer F) (source : video_format_t)
    (h : (vlc_gl_renderer_Draw ops alloc renderer source).1 = .VLC_SUCCESS) :
    (vlc_gl_renderer_Draw ops alloc
      (vlc_gl_renderer_Draw ops alloc renderer source).2.1 source).2.2 = false := by
  by_cases hchg : (source.i_x_offset ≠ renderer.last_source.i_x_offset
      ∨ source.i_y_offset ≠ renderer.last_source.i_y_offset
      ∨ source.i_visible_width ≠ renderer.last_source.i_visible_width
      ∨ source.i_visible_height ≠ renderer.last_source.i_visible_height)
  · have hstate : (vlc_gl_renderer_Draw ops alloc renderer source).2.1.last_source
        = { i_x_offset := source.i_x_offset, i_y_offset := source.i_y_offset,
            i_visible_width := source.i_visible_width,
            i_visible_height := source.i_visible_height } := by
      unfold vlc_gl_renderer_Draw at h ⊢
      rw [if_pos hchg] at h ⊢
      dsimp only at h ⊢
      split_ifs at h ⊢ with h1
      · exact absurd h h1
      · rfl
    rw [Draw_no_change ops alloc _ source (by simp [hstate])]
  · rw [Draw_no_change ops alloc renderer source hchg]
    dsimp only
    rw [Draw_no_change ops alloc renderer source hchg]

/-- C6: Draw rebuilds the mesh exactly when the incoming source's
visible rectangle (x/y offset, visible width/height) differs from the
last-drawn snapshot; consequently, after a successful Draw a second Draw
with the same source performs no rebuild (exactly one rebuild across the
two calls when the first one saw a change). -/
theorem Draw_rebuild_iff_changed (ops : FloatOps F) (alloc : AllocOracle)
    (renderer : vlc_gl_renderer F) (source : video_format_t) :
    ((vlc_gl_renderer_Draw ops alloc renderer source).2.2 = true ↔
      (source.i_x_offset ≠ renderer.last_source.i_x_offset
        ∨ source.i_y_offset ≠ renderer.last_source.i_y_offset
        ∨ source.i_visible_width ≠ renderer.last_source.i_visible_width
        ∨ source.i_visible_height ≠ renderer.last_source.i_visible_height))
    ∧ ((vlc_gl_renderer_Draw ops alloc renderer source).1 = .VLC_SUCCESS →
      (vlc_gl_renderer_Draw ops alloc
        (vlc_gl_renderer_Draw ops alloc renderer source).2.1 source).2.2 = false) :=
  ⟨Draw_flag_iff ops alloc renderer source,
   fun h => Draw_twice_no_rebuild ops alloc renderer source h⟩

/-- Witness for C6 at a concrete input: a flat-projection renderer whose
snapshot is all zero, drawn twice with a source whose x offset is 1. -/
theorem Draw_rebuild_iff_changed_witness :
    ((vlc_gl_renderer_Draw ratOps ⟨true, true, true⟩ testRenderer
        { i_x_offset := 1, i_y_offset := 0, i_visible_width := 0,
          i_visible_height := 0 }).2.2 = true)
    ∧ ((vlc_gl_renderer_Draw ratOps ⟨true, true, true⟩
        (vlc_gl_renderer_Draw ratOps ⟨true, true, true⟩ testRenderer
          { i_x_offset := 1, i_y_offset := 0, i_visible_width := 0,
            i_visible_height := 0 }).2.1
        { i_x_offset := 1, i_y_offset := 0, i_visible_width := 0,
          i_visible_height := 0 }).2.2 = false) := by
  have T := Draw_rebuild_iff_changed ratOps ⟨true, true, true⟩ testRenderer
    { i_x_offset := 1, i_y_offset := 0, i_visible_width := 0, i_visible_height := 0 }
  exact ⟨T.1.mpr (Or.inl (by decide)), T.2 rfl⟩

end VlcGlRenderer
